import Mathlib

/-!
Shallow embedding of the user-account core of the `py-api` service:
the `User` entity, the SQLAlchemy-backed repository
(`src/infrastructure/repositories/user_repository.py`), the Create and
Delete use cases (`src/application/users/create_user_use_case.py`,
`src/application/delete_user_use_case.py`) and the response schema
(`src/transport/http/v1/schemas/user.py`), together with theorems about
them.
-/

namespace PyApi

/-- Modelled from the spec: the `User` entity (`domain/user.py` is imported by
the use cases but absent from the source tree). Per the spec's data model:
`id` is optional, absent for a not-yet-persisted entity and assigned by the
store on first save; `is_active` defaults to true on creation. -/
structure User where
  id : Option Nat
  name : String
  email : String
  password_hash : String
  is_active : Bool := true
deriving DecidableEq

/-- Modelled from the spec: one persisted user row (`infrastructure/models/user.py`
is absent from the source tree). Per the spec's persisted schema: integer
store-assigned primary key, name, email, password_hash, is_active. -/
structure Row where
  id : Nat
  name : String
  email : String
  password_hash : String
  is_active : Bool
deriving DecidableEq

/-- The relational store behind the SQLAlchemy session: the persisted rows in
insertion order, plus the next primary key the store will assign. -/
structure Store where
  rows : List Row
  next_id : Nat
deriving DecidableEq

/-- How `SQLAlchemyUserRepository` rebuilds a `User` entity from a row
(the `User(id=user_model.id, ...)` constructions at
`user_repository.py` lines 27-33, 38-45 and 50-57). -/
def Row.toUser (r : Row) : User :=
  { id := some r.id, name := r.name, email := r.email,
    password_hash := r.password_hash, is_active := r.is_active }

/-- The exceptions this core raises, as the caller observes them: the two
`ValueError`s of the use cases ("Email already registered" and "User not
found", which the spec names `DuplicateEmail` and `NotFound`), and
SQLAlchemy's `InvalidRequestError`, raised by `db.refresh(user_model)` at
`user_repository.py` line 26 when `user_model` was left detached by
`db.merge` at line 21 (merge copies state onto a separate persistent
instance and its return value is discarded). -/
inductive UCError where
  | duplicateEmail
  | notFound
  | invalidRequest
deriving DecidableEq

/-- The insert branch of `SQLAlchemyUserRepository.save`
(`user_repository.py` lines 22-26): `db.add` of a model built from the
entity's fields, commit, and `db.refresh`. `add` attaches the very instance
that is later refreshed, so refresh succeeds and the repository returns the
entity rebuilt from the row, carrying the store-assigned primary key. -/
def insertRow (s : Store) (user : User) : Except UCError User × Store :=
  let row : Row :=
    { id := s.next_id, name := user.name, email := user.email,
      password_hash := user.password_hash, is_active := user.is_active }
  (Except.ok row.toUser, { rows := s.rows ++ [row], next_id := s.next_id + 1 })

/-- The update branch of `SQLAlchemyUserRepository.save`
(`user_repository.py` lines 18-21, 25-26): the model keeps the entity's id
and is merged; SQLAlchemy's `Session.merge` copies every attribute of the
given object onto the row with that primary key (inserting such a row when
none exists) and the commit at line 25 persists that mutation. But merge's
return value is discarded, leaving `user_model` detached, so
`db.refresh(user_model)` at line 26 raises `InvalidRequestError`: this
branch never returns an entity — the committed row mutation is its only
effect. -/
def mergeRow (s : Store) (i : Nat) (user : User) : Except UCError User × Store :=
  let row : Row :=
    { id := i, name := user.name, email := user.email,
      password_hash := user.password_hash, is_active := user.is_active }
  if s.rows.any (fun r => r.id == i) then
    (Except.error UCError.invalidRequest,
     { s with rows := s.rows.map (fun r => if r.id == i then row else r) })
  else
    (Except.error UCError.invalidRequest, { s with rows := s.rows ++ [row] })

/-- `SQLAlchemyUserRepository.save` (`user_repository.py` lines 11-33). The
branch condition is Python's `if user.id:`, which is truthiness of the
optional integer: `None` and `0` are both falsy and take the insert branch.
The update branch commits the merged row and then raises (see `mergeRow`). -/
def save (s : Store) (user : User) : Except UCError User × Store :=
  match user.id with
  | some i => if i != 0 then mergeRow s i user else insertRow s user
  | none => insertRow s user

/-- `SQLAlchemyUserRepository.find_by_email` (`user_repository.py` lines
35-45): first row whose email matches, rebuilt as an entity; `none` when no
row matches. -/
def findByEmail (s : Store) (email : String) : Option User :=
  (s.rows.find? (fun r => r.email == email)).map Row.toUser

/-- `SQLAlchemyUserRepository.find_by_id` (`user_repository.py` lines 47-57):
first row whose primary key matches, rebuilt as an entity; `none` when no row
matches. -/
def findById (s : Store) (user_id : Nat) : Option User :=
  (s.rows.find? (fun r => r.id == user_id)).map Row.toUser

/-- `CreateUserUseCase.execute` (`create_user_use_case.py` lines 9-15). The
password hasher `Security.get_password_hash` (`infrastructure/security.py`,
absent from the source tree) is passed in as the function `hashFn`. A raise
is modelled as the error paired with the store the session holds when the
exception propagates: the duplicate-email raise happens before any write,
and any exception of `save` propagates out of the `return`. -/
def createUser (hashFn : String → String) (s : Store)
    (name email password : String) : Except UCError User × Store :=
  if (findByEmail s email).isSome then
    (Except.error UCError.duplicateEmail, s)
  else
    let password_hash := hashFn password
    let user : User :=
      { id := none, name := name, email := email, password_hash := password_hash }
    save s user

/-- `DeleteUserUseCase.execute` (`delete_user_use_case.py` lines 8-14): load
by id, raise `NotFound` when absent, otherwise set `is_active := false` on
the loaded entity and save it; any exception of `save` propagates out of the
`return`. -/
def deleteUser (s : Store) (user_id : Nat) : Except UCError User × Store :=
  match findById s user_id with
  | none => (Except.error UCError.notFound, s)
  | some user => save s { user with is_active := false }

/-- Stated from the spec's words, for comparison with the code's `save`: on
the update path, "load the current row by id, apply only the fields relevant
to the operation being performed (e.g., `is_active`), then commit". The only
update performed through this repository is deactivation, so the relevant
field is `is_active`; all other stored fields of the current row are kept,
and the updated entity is returned (the loaded row is a persistent instance,
so nothing raises). -/
def saveFetchFirstSpec (s : Store) (user : User) : Except UCError User × Store :=
  match user.id with
  | some i =>
    if i != 0 then
      match s.rows.find? (fun r => r.id == i) with
      | some current =>
        let updated : Row := { current with is_active := user.is_active }
        (Except.ok updated.toUser,
         { s with rows := s.rows.map (fun r => if r.id == i then updated else r) })
      | none => insertRow s user
    else insertRow s user
  | none => insertRow s user

/-- One operation of the user-account scope: a Create-User call or a
Delete-User call. -/
inductive Op where
  | create (name email password : String)
  | delete (user_id : Nat)

/-- The store state after one use-case invocation (results discarded). -/
def stepOp (hashFn : String → String) (s : Store) : Op → Store
  | Op.create name email password => (createUser hashFn s name email password).2
  | Op.delete user_id => (deleteUser s user_id).2

/-- The store state after a sequence of use-case invocations. -/
def runOps (hashFn : String → String) (s : Store) : List Op → Store
  | [] => s
  | op :: ops => runOps hashFn (stepOp hashFn s op) ops

/-- Relation between an earlier store state and a later one: no stored row is
ever removed (each keeps its position and its id; the row list only grows) and
a row that is inactive never becomes active again. -/
def Preserves (s s' : Store) : Prop :=
  s.rows.length ≤ s'.rows.length ∧
  ∀ idx : Nat, ∀ h : idx < s.rows.length, ∀ h' : idx < s'.rows.length,
    (s'.rows[idx]).id = (s.rows[idx]).id ∧
    ((s.rows[idx]).is_active = false → (s'.rows[idx]).is_active = false)

/-- `UserResponse` (`transport/http/v1/schemas/user.py` lines 8-12): the
response-facing representation, whose declared fields are id, name, email and
is_active only. -/
structure UserResponse where
  id : Nat
  name : String
  email : String
  is_active : Bool
deriving DecidableEq

/-- Pydantic's `from_attributes` construction of a `UserResponse` from a
`User` entity returned by a use case: it reads exactly the declared fields;
it fails when `id` is absent, since the schema declares `id` as a required
integer. -/
def UserResponse.ofUser (u : User) : Option UserResponse :=
  match u.id with
  | some i => some { id := i, name := u.name, email := u.email, is_active := u.is_active }
  | none => none

/-- Serialization of a `UserResponse` to the key-value pairs of its JSON
object, in the schema's declared field order. -/
def UserResponse.render (r : UserResponse) : List (String × String) :=
  [("id", toString r.id), ("name", r.name), ("email", r.email),
   ("is_active", toString r.is_active)]

/-- Concrete store for exercising the update path of `save`: one row, id 1,
holding Alice's record. -/
def storeC5 : Store :=
  { rows := [{ id := 1, name := "Alice", email := "alice@x.com",
               password_hash := "h1", is_active := true }],
    next_id := 2 }

/-- Concrete incoming entity for the update path of `save`: id 1 but
different name, email and hash, as a stale or partially-constructed entity
would carry. -/
def userC5 : User :=
  { id := some 1, name := "Bob", email := "bob@y.com",
    password_hash := "h2", is_active := true }

/-! Theorems. -/

/-- C1: for every valid input (non-empty name, non-empty password; email
syntax is validated by the out-of-scope transport layer and does not affect
the core) whose email no stored user carries, Create-User succeeds and
returns an entity with the non-null store-assigned id, `is_active = true`,
and the given name and email. -/
theorem createUser_fresh_succeeds (hashFn : String → String) (s : Store)
    (name email password : String)
    (hname : name ≠ "") (hpassword : password ≠ "")
    (hunseen : findByEmail s email = none) :
    ∃ u' s', createUser hashFn s name email password = (Except.ok u', s') ∧
      u'.id = some s.next_id ∧ u'.id ≠ none ∧ u'.is_active = true ∧
      u'.name = name ∧ u'.email = email := by
  have h1 : (findByEmail s email).isSome = false := by rw [hunseen]; rfl
  unfold createUser
  rw [h1]
  simp only [Bool.false_eq_true, if_false]
  exact ⟨_, _, rfl, rfl, by simp [save, insertRow, Row.toUser], rfl, rfl, rfl⟩

/-- Witness for C1 at a concrete input. -/
theorem createUser_fresh_succeeds_witness :
    ∃ u' s', createUser (fun p => p) { rows := [], next_id := 1 }
        "Alice" "alice@x.com" "pw123" = (Except.ok u', s') ∧
      u'.id = some 1 ∧ u'.id ≠ none ∧ u'.is_active = true ∧
      u'.name = "Alice" ∧ u'.email = "alice@x.com" :=
  createUser_fresh_succeeds (fun p => p) { rows := [], next_id := 1 }
    "Alice" "alice@x.com" "pw123" (by decide) (by decide) rfl

/-- C4: for every id with no matching stored user, Delete-User fails with
`NotFound` and the store is returned unchanged (no save happens on this
path). -/
theorem deleteUser_missing_notFound (s : Store) (user_id : Nat)
    (habsent : findById s user_id = none) :
    deleteUser s user_id = (Except.error UCError.notFound, s) := by
  unfold deleteUser
  rw [habsent]

/-- Witness for C4 at a concrete input. -/
theorem deleteUser_missing_notFound_witness :
    deleteUser { rows := [], next_id := 1 } 999
      = (Except.error UCError.notFound, { rows := [], next_id := 1 }) :=
  deleteUser_missing_notFound { rows := [], next_id := 1 } 999 rfl

/-- C10: `save` decides insert-versus-update by Python truthiness of the
entity's id: an entity whose id equals 0 takes the insert path, appending a
new row under the store-assigned `next_id` and returning the entity normally,
never updating a record with id 0. -/
theorem save_zero_id_inserts (s : Store) (name email ph : String) (act : Bool) :
    save s { id := some 0, name := name, email := email,
             password_hash := ph, is_active := act } =
      (Except.ok (User.mk (some s.next_id) name email ph act),
       { rows := s.rows ++ [{ id := s.next_id, name := name, email := email,
                              password_hash := ph, is_active := act }],
         next_id := s.next_id + 1 }) := rfl

/-- When some stored row carries the email, the pre-check in
`CreateUserUseCase.execute` fires: the call raises `DuplicateEmail` before
any write, leaving the store unchanged. -/
theorem createUser_dup_core (hashFn : String → String) (s : Store)
    (name email password : String)
    (hex : ∃ r ∈ s.rows, r.email = email) :
    createUser hashFn s name email password
      = (Except.error UCError.duplicateEmail, s) := by
  have hsome : (findByEmail s email).isSome = true := by
    unfold findByEmail
    rw [Option.isSome_map']
    rw [List.find?_isSome]
    obtain ⟨r, hr, he⟩ := hex
    exact ⟨r, hr, by simp [he]⟩
  unfold createUser
  rw [hsome]
  simp

/-- C2: for every email some stored user already carries, Create-User fails
with `DuplicateEmail` and the store is returned unchanged; in particular,
calling Create twice with the same email fails the second time with
`DuplicateEmail` and persists exactly one row, not two. -/
theorem createUser_duplicate_email (hashFn : String → String) (s : Store)
    (name email password : String)
    (hex : ∃ r ∈ s.rows, r.email = email) :
    createUser hashFn s name email password
        = (Except.error UCError.duplicateEmail, s) ∧
    ∀ s₀ : Store, ∀ name₁ pw₁ name₂ pw₂ : String, ∀ u₁ : User,
      (createUser hashFn s₀ name₁ email pw₁).1 = Except.ok u₁ →
      createUser hashFn (createUser hashFn s₀ name₁ email pw₁).2 name₂ email pw₂
        = (Except.error UCError.duplicateEmail,
           (createUser hashFn s₀ name₁ email pw₁).2) ∧
      (createUser hashFn s₀ name₁ email pw₁).2.rows.length
        = s₀.rows.length + 1 := by
  refine ⟨createUser_dup_core hashFn s name email password hex, ?_⟩
  intro s₀ name₁ pw₁ name₂ pw₂ u₁ hok
  by_cases hdup : (findByEmail s₀ email).isSome = true
  · exfalso
    unfold createUser at hok
    rw [hdup] at hok
    simp at hok
  · have hfalse : (findByEmail s₀ email).isSome = false :=
      Bool.eq_false_iff.mpr hdup
    have h2 : createUser hashFn s₀ name₁ email pw₁
        = save s₀ (User.mk none name₁ email (hashFn pw₁) true) := by
      unfold createUser
      rw [hfalse]
      simp
    rw [h2]
    constructor
    · apply createUser_dup_core
      refine ⟨Row.mk s₀.next_id name₁ email (hashFn pw₁) true, ?_, rfl⟩
      simp [save, insertRow]
    · simp [save, insertRow]

/-- Witness for C2 at a concrete input. -/
theorem createUser_duplicate_email_witness :
    createUser (fun p => p)
        { rows := [{ id := 1, name := "Alice", email := "alice@x.com",
                     password_hash := "pw123", is_active := true }], next_id := 2 }
        "Bob" "alice@x.com" "pw456"
      = (Except.error UCError.duplicateEmail,
         { rows := [{ id := 1, name := "Alice", email := "alice@x.com",
                      password_hash := "pw123", is_active := true }], next_id := 2 }) ∧
    ∀ s₀ : Store, ∀ name₁ pw₁ name₂ pw₂ : String, ∀ u₁ : User,
      (createUser (fun p => p) s₀ name₁ "alice@x.com" pw₁).1 = Except.ok u₁ →
      createUser (fun p => p)
          (createUser (fun p => p) s₀ name₁ "alice@x.com" pw₁).2 name₂ "alice@x.com" pw₂
        = (Except.error UCError.duplicateEmail,
           (createUser (fun p => p) s₀ name₁ "alice@x.com" pw₁).2) ∧
      (createUser (fun p => p) s₀ name₁ "alice@x.com" pw₁).2.rows.length
        = s₀.rows.length + 1 :=
  createUser_duplicate_email (fun p => p)
    { rows := [{ id := 1, name := "Alice", email := "alice@x.com",
                 password_hash := "pw123", is_active := true }], next_id := 2 }
    "Bob" "alice@x.com" "pw456" (by decide)

/-- C9: the response-facing representation built from a returned entity
exposes exactly the keys id, name, email and is_active, never a
password_hash key, and does not depend on the stored hash: two entities that
differ only in `password_hash` produce identical responses. -/
theorem userResponse_hides_password_hash (u : User) :
    (∀ resp : UserResponse, UserResponse.ofUser u = some resp →
        resp.render.map Prod.fst = ["id", "name", "email", "is_active"] ∧
        "password_hash" ∉ resp.render.map Prod.fst) ∧
    ∀ ph : String,
      UserResponse.ofUser { u with password_hash := ph }
        = UserResponse.ofUser u := by
  refine ⟨fun resp _ => ⟨rfl, ?_⟩, fun ph => ?_⟩
  · show "password_hash" ∉ (["id", "name", "email", "is_active"] : List String)
    decide
  cases u with
  | mk id name email password_hash is_active => cases id <;> rfl

/-- The update branch of `save` in closed form: with a present nonzero id
matching some stored row, `merge` rewrites every field of that row from the
incoming entity and the commit persists it, and then the refresh on the
detached instance raises `InvalidRequestError` instead of returning the
entity. -/
theorem save_merge_eq (s : Store) (u : User) (i : Nat)
    (hid : u.id = some i) (hnz : i ≠ 0)
    (hany : s.rows.any (fun r => r.id == i) = true) :
    save s u =
      (Except.error UCError.invalidRequest,
       { s with rows := s.rows.map (fun r => if r.id == i then
           Row.mk i u.name u.email u.password_hash u.is_active else r) }) := by
  obtain ⟨oid, nm, em, ph, ac⟩ := u
  obtain rfl : oid = some i := hid
  have hnzb : (i != 0) = true := by simpa using hnz
  simp only [save]
  rw [if_pos hnzb]
  simp only [mergeRow]
  rw [if_pos hany]

/-- The insert branch of `save` in closed form: with an absent or zero id the
row is appended under the store-assigned `next_id` and the entity is
returned. -/
theorem save_insert_eq (s : Store) (u : User) (h : u.id = none ∨ u.id = some 0) :
    save s u =
      (Except.ok (User.mk (some s.next_id) u.name u.email u.password_hash u.is_active),
       { rows := s.rows ++
           [Row.mk s.next_id u.name u.email u.password_hash u.is_active],
         next_id := s.next_id + 1 }) := by
  obtain ⟨oid, nm, em, ph, ac⟩ := u
  rcases h with h | h
  · obtain rfl : oid = none := h
    rfl
  · obtain rfl : oid = some 0 := h
    rfl

/-- The update branch of `save` when no stored row carries the id: `merge`
inserts a row under that very id, and the refresh on the detached instance
still raises instead of returning the entity. -/
theorem save_merge_insert_eq (s : Store) (u : User) (i : Nat)
    (hid : u.id = some i) (hnz : i ≠ 0)
    (hnone : s.rows.any (fun r => r.id == i) = false) :
    save s u =
      (Except.error UCError.invalidRequest,
       { s with rows := s.rows ++
           [Row.mk i u.name u.email u.password_hash u.is_active] }) := by
  obtain ⟨oid, nm, em, ph, ac⟩ := u
  obtain rfl : oid = some i := hid
  have hnzb : (i != 0) = true := by simpa using hnz
  simp only [save]
  rw [if_pos hnzb]
  simp only [mergeRow]
  rw [if_neg (by simp [hnone])]

/-- Counterexample for C5: `save` does not behave as fetch-the-row and apply
only the operation's fields; at this input the code's `save` rewrites the
stored name to "Bob" where the fetch-first description keeps "Alice", and it
raises `InvalidRequestError` (refresh on the detached merged instance)
instead of returning an entity. -/
theorem save_not_fetch_first :
    save storeC5 userC5 ≠ saveFetchFirstSpec storeC5 userC5 ∧
    (save storeC5 userC5).2.rows.map Row.name = ["Bob"] ∧
    (saveFetchFirstSpec storeC5 userC5).2.rows.map Row.name = ["Alice"] ∧
    (save storeC5 userC5).1 = Except.error UCError.invalidRequest := by
  refine ⟨fun heq => ?_, rfl, rfl, rfl⟩
  have h := congrArg (fun p : Except UCError User × Store =>
    p.2.rows.map Row.name) heq
  exact absurd h (by decide)

/-- C5 (amended): when `save` is called with an entity whose id is present
(and nonzero) and a row with that id is stored, it does not fetch the
current row and patch only the operation's fields: `merge` overwrites the
whole row — name, email, password_hash and is_active — from the incoming
entity, the commit persists that overwrite, and the subsequent
`db.refresh` on the instance left detached by `merge` raises
`InvalidRequestError`, so the call never returns an entity. -/
theorem save_present_id_overwrites_row (s : Store) (u : User) (i : Nat)
    (hid : u.id = some i) (hnz : i ≠ 0) (hex : ∃ r ∈ s.rows, r.id = i) :
    save s u =
      (Except.error UCError.invalidRequest,
       { s with rows := s.rows.map (fun r => if r.id == i then
           Row.mk i u.name u.email u.password_hash u.is_active else r) }) := by
  apply save_merge_eq s u i hid hnz
  rw [List.any_eq_true]
  obtain ⟨r, hr, he⟩ := hex
  exact ⟨r, hr, by simp [he]⟩

/-- Witness for the amended C5 at a concrete input. -/
theorem save_present_id_overwrites_row_witness :
    save storeC5 userC5 =
      (Except.error UCError.invalidRequest,
       { storeC5 with rows := storeC5.rows.map (fun r => if r.id == 1 then
           Row.mk 1 "Bob" "bob@y.com" "h2" true else r) }) := by
  have h := save_present_id_overwrites_row storeC5 userC5 1 rfl (by decide) (by decide)
  simpa [userC5] using h

/-- C3 at its failing input: Delete on a stored id commits the deactivation —
name, email and password_hash preserved, `is_active` now false — but the
call raises `InvalidRequestError` (`db.refresh` on the instance left
detached by `db.merge`) instead of returning the updated entity. -/
theorem deleteUser_commits_but_raises :
    deleteUser { rows := [Row.mk 1 "Alice" "alice@x.com" "h1" true],
                 next_id := 2 } 1
      = (Except.error UCError.invalidRequest,
         { rows := [Row.mk 1 "Alice" "alice@x.com" "h1" false],
           next_id := 2 }) := rfl

/-- C6 at its failing input: neither of two successive Delete calls on a
stored id succeeds — both raise `InvalidRequestError` at the refresh after
committing — though the row does end up (and stay) inactive. -/
theorem deleteUser_twice_raises :
    deleteUser { rows := [Row.mk 1 "Alice" "alice@x.com" "h1" true],
                 next_id := 2 } 1
      = (Except.error UCError.invalidRequest,
         { rows := [Row.mk 1 "Alice" "alice@x.com" "h1" false],
           next_id := 2 }) ∧
    deleteUser { rows := [Row.mk 1 "Alice" "alice@x.com" "h1" false],
                 next_id := 2 } 1
      = (Except.error UCError.invalidRequest,
         { rows := [Row.mk 1 "Alice" "alice@x.com" "h1" false],
           next_id := 2 }) := ⟨rfl, rfl⟩

/-- C7 at its failing input: saving an entity with a present (nonzero) id
commits the merged row but raises `InvalidRequestError` and returns no
entity, hence no returned id whose lookup could yield the record; the
round-trip can only be exercised on the insert path. -/
theorem save_update_raises_no_id :
    (save { rows := [Row.mk 1 "Alice" "alice@x.com" "h1" true], next_id := 2 }
        (User.mk (some 1) "Alicia" "alice@x.com" "h2" true)).1
      = Except.error UCError.invalidRequest ∧
    (save { rows := [Row.mk 1 "Alice" "alice@x.com" "h1" true], next_id := 2 }
        (User.mk (some 1) "Alicia" "alice@x.com" "h2" true)).2.rows
      = [Row.mk 1 "Alicia" "alice@x.com" "h2" true] := ⟨rfl, rfl⟩

/-- Unpacking a successful `find_by_id`: the entity is the first stored row
carrying that id. -/
theorem findById_some_elim (s : Store) (i : Nat) (u : User)
    (h : findById s i = some u) :
    ∃ r₀, r₀ ∈ s.rows ∧ s.rows.find? (fun r => r.id == i) = some r₀ ∧
      r₀.id = i ∧ u = r₀.toUser := by
  unfold findById at h
  cases hf : s.rows.find? (fun r => r.id == i) with
  | none => rw [hf] at h; simp at h
  | some r₀ =>
    rw [hf] at h
    simp only [Option.map_some', Option.some.injEq] at h
    refine ⟨r₀, List.mem_of_find?_eq_some hf, rfl, ?_, h.symm⟩
    have hp := List.find?_some hf
    simpa using hp

/-- `Preserves` is reflexive. -/
theorem preserves_refl (s : Store) : Preserves s s :=
  ⟨Nat.le_refl _, fun _ _ _ => ⟨rfl, fun hia => hia⟩⟩

/-- `Preserves` is transitive. -/
theorem preserves_trans (s₁ s₂ s₃ : Store)
    (h12 : Preserves s₁ s₂) (h23 : Preserves s₂ s₃) : Preserves s₁ s₃ := by
  refine ⟨Nat.le_trans h12.1 h23.1, fun idx h h' => ?_⟩
  have h2 : idx < s₂.rows.length := Nat.lt_of_lt_of_le h h12.1
  obtain ⟨hid12, hia12⟩ := h12.2 idx h h2
  obtain ⟨hid23, hia23⟩ := h23.2 idx h2 h'
  exact ⟨hid23.trans hid12, fun hia => hia23 (hia12 hia)⟩

/-- Appending rows preserves the existing rows verbatim. -/
theorem preserves_append (s : Store) (l₂ : List Row) (n : Nat) :
    Preserves s { rows := s.rows ++ l₂, next_id := n } := by
  refine ⟨by simp, fun idx h h' => ?_⟩
  have hg : ({ rows := s.rows ++ l₂, next_id := n } : Store).rows[idx]
      = s.rows[idx] := List.getElem_append_left h
  rw [hg]
  exact ⟨rfl, fun hia => hia⟩

/-- Mapping the rows with a function that keeps ids and keeps inactive rows
inactive preserves the store. -/
theorem preserves_map (s : Store) (f : Row → Row) (n : Nat)
    (hid : ∀ r : Row, (f r).id = r.id)
    (hia : ∀ r : Row, r.is_active = false → (f r).is_active = false) :
    Preserves s { rows := s.rows.map f, next_id := n } := by
  refine ⟨by simp, fun idx h h' => ?_⟩
  have hg : ({ rows := s.rows.map f, next_id := n } : Store).rows[idx]
      = f (s.rows[idx]) := List.getElem_map f
  rw [hg]
  exact ⟨hid _, hia _⟩

/-- One Create-User call never removes, renumbers or reactivates a stored
row: it either changes nothing (duplicate email raised before any write) or
appends one row. -/
theorem create_step_preserves (hashFn : String → String) (s : Store)
    (name email password : String) :
    Preserves s (createUser hashFn s name email password).2 := by
  by_cases hdup : (findByEmail s email).isSome = true
  · have heq : createUser hashFn s name email password
        = (Except.error UCError.duplicateEmail, s) := by
      unfold createUser
      rw [hdup]
      simp
    rw [heq]
    exact preserves_refl s
  · have hfalse := Bool.eq_false_iff.mpr hdup
    have h2 : (createUser hashFn s name email password).2
        = (save s (User.mk none name email (hashFn password) true)).2 := by
      unfold createUser
      rw [hfalse]
      simp
    rw [h2, save_insert_eq s _ (Or.inl rfl)]
    exact preserves_append s _ _

/-- One Delete-User call never removes, renumbers or reactivates a stored
row: it changes nothing (id not found), appends a row (id 0, the truthiness
slip), or deactivates rows in place — the refresh raise happens only after
that commit, so the post-call store is exactly the committed one. -/
theorem delete_step_preserves (s : Store) (i : Nat) :
    Preserves s (deleteUser s i).2 := by
  cases hfind : findById s i with
  | none =>
    have heq : deleteUser s i = (Except.error UCError.notFound, s) := by
      unfold deleteUser
      rw [hfind]
    rw [heq]
    exact preserves_refl s
  | some u =>
    obtain ⟨r₀, hr₀mem, hf, hr₀id, hu⟩ := findById_some_elim s i u hfind
    have hrun : (deleteUser s i).2 = (save s { u with is_active := false }).2 := by
      unfold deleteUser
      rw [hfind]
    have hid' : ({ u with is_active := false } : User).id = some i := by
      rw [hu]
      simp [Row.toUser, hr₀id]
    rw [hrun]
    by_cases h0 : i = 0
    · subst h0
      rw [save_insert_eq s _ (Or.inr hid')]
      exact preserves_append s _ _
    · have hany : s.rows.any (fun r => r.id == i) = true := by
        rw [List.any_eq_true]
        exact ⟨r₀, hr₀mem, by simp [hr₀id]⟩
      rw [save_merge_eq s _ i hid' h0 hany]
      apply preserves_map
      · intro r
        by_cases hc : (r.id == i) = true
        · rw [if_pos hc]
          have hri : r.id = i := by simpa using hc
          simp [hri]
        · rw [if_neg hc]
      · intro r hr
        by_cases hc : (r.id == i) = true
        · rw [if_pos hc]
        · rw [if_neg hc]
          exact hr

/-- C8: across every sequence of Create-User and Delete-User operations, no
stored record is ever physically removed (each row keeps its position and
id, and the row list only grows) and no record ever transitions from
inactive back to active. -/
theorem no_reactivation_no_removal (hashFn : String → String) (s : Store)
    (ops : List Op) : Preserves s (runOps hashFn s ops) := by
  induction ops generalizing s with
  | nil => exact preserves_refl s
  | cons op ops ih =>
    have hstep : Preserves s (stepOp hashFn s op) := by
      cases op with
      | create name email password =>
        exact create_step_preserves hashFn s name email password
      | delete user_id => exact delete_step_preserves s user_id
    exact preserves_trans s (stepOp hashFn s op) (runOps hashFn (stepOp hashFn s op) ops)
      hstep (ih (stepOp hashFn s op))

end PyApi
